import Mathlib

/-!
Verification of the forsenInsane timer-recognition pipeline and two-tier
detection state machine, as a shallow embedding of `src/ocr.py`,
`src/main.py` and `src/x.py`.
-/

set_option maxHeartbeats 1000000

namespace ForsenInsane

/-! ### Timer decoder (src/ocr.py) -/

/-- Numeric value of an ASCII digit character. -/
def digitVal (c : Char) : Nat := c.toNat - 48

/-- One single-character substitution (Python `str.replace` restricted to
single characters, applied per character). -/
def subst (old new c : Char) : Char := if c = old then new else c

/-- One character of `_fix_ocr_text`: uppercase, then the
punctuation substitutions, then the digit substitutions, in source order.
Every rule in the source table maps one character to one character, so the
sequence of whole-string `replace` passes is the per-character composition
of the same rules in the same order. -/
def fixChar (c : Char) : Char :=
  let c0 := c.toUpper
  let p1 := subst '-' ':' c0
  let p2 := subst ';' ':' p1
  let p3 := subst (Char.ofNat 39) ':' p2
  let p4 := subst ',' '.' p3
  let d1 := subst 'O' '0' p4
  let d2 := subst 'D' '0' d1
  let d3 := subst 'Q' '0' d2
  let d4 := subst 'U' '0' d3
  let d5 := subst 'I' '1' d4
  let d6 := subst 'L' '1' d5
  let d7 := subst '|' '1' d6
  let d8 := subst 'J' '1' d7
  let d9 := subst 'Z' '2' d8
  let d10 := subst 'E' '3' d9
  let d11 := subst 'A' '4' d10
  let d12 := subst 'H' '4' d11
  let d13 := subst 'S' '5' d12
  let d14 := subst 'G' '6' d13
  let d15 := subst 'B' '8' d14
  subst 'P' '9' d15

/-- Embedding of `_fix_ocr_text`: fix common OCR misreads for the pixel timer font. -/
def fix_ocr_text (s : String) : String := ⟨s.data.map fixChar⟩

/-- Embedding of `re.findall` for the pattern "1-2 digits, colon,
exactly 2 digits": scan left to
right; at each position first try two minute digits (greedy), then one;
on a match, emit the pair of integers and continue after the match,
otherwise advance one character. -/
def findAllTimes : List Char → List (Nat × Nat)
  | a :: b :: c :: x :: y :: rest =>
      if a.isDigit && b.isDigit && c == ':' && x.isDigit && y.isDigit then
        (10 * digitVal a + digitVal b, 10 * digitVal x + digitVal y) :: findAllTimes rest
      else if a.isDigit && b == ':' && c.isDigit && x.isDigit then
        (digitVal a, 10 * digitVal c + digitVal x) :: findAllTimes (y :: rest)
      else findAllTimes (b :: c :: x :: y :: rest)
  | [a, b, c, x] =>
      if a.isDigit && b == ':' && c.isDigit && x.isDigit then
        [(digitVal a, 10 * digitVal c + digitVal x)]
      else findAllTimes [b, c, x]
  | _ :: rest => findAllTimes rest
  | [] => []
termination_by structural l => l

/-- The `valid_times` loop of `parse_timer_detailed`: minute-overflow
correction (`mins %= 10` when `mins >= 60`), then keep `mins*60 + secs`
for tokens whose seconds component is below 60, in encounter order. -/
def validTimes : List (Nat × Nat) → List Nat
  | [] => []
  | (m, s) :: rest =>
      let m2 := if 60 ≤ m then m % 10 else m
      if s < 60 then (m2 * 60 + s) :: validTimes rest else validTimes rest

/-- Result from timer OCR with both RTA and IGT values. -/
structure TimerResult where
  rta : Option Nat
  igt : Option Nat
deriving Repr, DecidableEq

/-- Property `TimerResult.timer`: return IGT if available, else RTA. -/
def TimerResult.timer (r : TimerResult) : Option Nat :=
  match r.igt with
  | some v => some v
  | none => r.rta

/-- The list of valid decoded tokens of a text: character correction,
token extraction, then the validity/overflow pass. -/
def validTokensOf (text : String) : List Nat :=
  validTimes (findAllTimes (fix_ocr_text text).data)

/-- Embedding of `parse_timer_detailed`: first valid token is `rta`, second is `igt`. -/
def parse_timer_detailed (text : String) : TimerResult :=
  { rta := (validTokensOf text)[0]?, igt := (validTokensOf text)[1]? }

/-- Embedding of `parse_timer`: the effective timer of the detailed result. -/
def parse_timer (text : String) : Option Nat :=
  (parse_timer_detailed text).timer

/-- Decimal digits of a natural number, fuelled (Python `repr` of a
nonnegative `int`). Fuel `n + 1` always suffices. -/
def natDigitsAux : Nat → Nat → List Char
  | 0, _ => []
  | fuel + 1, n =>
      if n < 10 then [Nat.digitChar n]
      else natDigitsAux fuel (n / 10) ++ [Nat.digitChar (n % 10)]

/-- Decimal digit characters of `n`, most significant first. -/
def natDigits (n : Nat) : List Char := natDigitsAux (n + 1) n

/-- Python two-digit zero padding of a natural number. -/
def pad2 (n : Nat) : List Char :=
  if n < 10 then '0' :: natDigits n else natDigits n

/-- Embedding of `format_timer`: seconds as `M:SS`, minutes unpadded, seconds
zero-padded to two digits. -/
def format_timer (seconds : Nat) : String :=
  ⟨natDigits (seconds / 60) ++ ':' :: pad2 (seconds % 60)⟩

example : parse_timer ("RTA: 03:47.246") = some 227 := by decide
example : parse_timer ("IGT: 10:30.000") = some 630 := by decide
example : parse_timer ("RTA: 63:47.246") = some 227 := by decide
example : parse_timer ("RTA: 03:47.246\nIGT: 03:28.022") = some 208 := by decide
example : parse_timer ("no time here") = none := by decide
example : parse_timer ("") = none := by decide
example : parse_timer_detailed ("RTA: 03:47.246\nIGT: 03:28.022") =
    { rta := some 227, igt := some 208 } := by decide
example : format_timer 0 = ("0:00") := by decide
example : format_timer 90 = ("1:30") := by decide
example : format_timer 867 = ("14:27") := by decide
example : format_timer 630 = ("10:30") := by decide
example : fix_ocr_text ("03:47") = ("03:47") := by decide
example : parse_timer (format_timer 3600) = some 0 := by decide

/-! ### Detection state machine (src/main.py) and notification (src/x.py) -/

/-- The `config.json` keys consumed by `main.py`, with the source defaults
already applied (the code reads them through `config.get` with a
default). -/
structure Config where
  streamer : String
  min_threshold_seconds : Nat
  max_threshold_seconds : Nat
  enabled : Bool
deriving Repr, DecidableEq

/-- The `state.json` record: the sole durable state. -/
structure RunState where
  last_tweet_time : Option Int
deriving Repr, DecidableEq

/-- Embedding of `should_skip_for_same_run`: true when the last tweet was within
`max_threshold_seconds` of `now`. Times are modelled as integer seconds. -/
def should_skip_for_same_run (state : RunState) (config : Config) (now : Int) : Bool :=
  match state.last_tweet_time with
  | none => false
  | some last => now - last < (config.max_threshold_seconds : Int)

/-- Embedding of `check_live` (Tier 1): the collaborator result of
`check_minecraft_stream` is passed in as the pair
`(is_minecraft, stream)`, where `stream` carries the game name. -/
def check_live (config : Config) (state : RunState) (is_minecraft : Bool)
    (stream : Option String) (now : Int) : Bool :=
  if !config.enabled then false
  else
    match stream with
    | none => false
    | some _ =>
        if !is_minecraft then false
        else if should_skip_for_same_run state config now then false
        else true

/-- The collaborator responses observed by one Tier-2 iteration: the
re-verification result, the frame-capture result, the OCR read of the
captured frame, and the wall-clock time of the iteration. -/
structure IterInput where
  stream : Option String
  is_minecraft : Bool
  frame_captured : Bool
  timer_read : Option Nat
  now : Int
deriving Repr, DecidableEq

/-- Observable outcome of one `check_timer_loop` invocation: the returned
value, the `post_run_alert` invocations (formatted timer), the tweets
actually sent to the X API, and the `last_tweet_time` values persisted. -/
structure LoopOut where
  result : Option Nat
  alerts : List String
  posts : List String
  writes : List Int
deriving Repr, DecidableEq

/-- The tweet text built by `post_run_alert` in `src/x.py`. -/
def tweet_text (timer_formatted streamer : String) : String :=
  ("Current run: ") ++ timer_formatted ++ (" IGT | twitch.tv/") ++ streamer

/-- Embedding of `post_run_alert`: returns `none` without calling the X API on a dry
run, otherwise posts the tweet (modelled by its text). -/
def post_run_alert (timer_formatted streamer : String) (dry_run : Bool) : Option String :=
  if dry_run then none else some (tweet_text timer_formatted streamer)

/-- Embedding of `check_timer_loop` (Tier 2) over the trace of collaborator responses,
one `IterInput` per iteration. Exhaustion of the trace models the
`MAX_RUNTIME` wall-clock ceiling (return `None`, nothing posted). -/
def check_timer_loop (config : Config) (dry_run single_check : Bool) :
    List IterInput → LoopOut
  | [] => { result := none, alerts := [], posts := [], writes := [] }
  | inp :: rest =>
      match inp.stream with
      | none => { result := none, alerts := [], posts := [], writes := [] }
      | some _ =>
          if !inp.is_minecraft then
            { result := none, alerts := [], posts := [], writes := [] }
          else if !inp.frame_captured then
            if single_check then { result := none, alerts := [], posts := [], writes := [] }
            else check_timer_loop config dry_run single_check rest
          else
            match inp.timer_read with
            | none =>
                if single_check then { result := none, alerts := [], posts := [], writes := [] }
                else check_timer_loop config dry_run single_check rest
            | some t =>
                if config.max_threshold_seconds < t then
                  { result := none, alerts := [], posts := [], writes := [] }
                else if config.min_threshold_seconds ≤ t then
                  { result := some t
                    alerts := [format_timer t]
                    posts :=
                      match post_run_alert (format_timer t) config.streamer dry_run with
                      | some p => [p]
                      | none => []
                    writes := if dry_run then [] else [inp.now] }
                else if single_check then
                  { result := none, alerts := [], posts := [], writes := [] }
                else check_timer_loop config dry_run single_check rest
termination_by structural l => l

/-- The three `--mode` values of `main`. -/
inductive Mode where
  | checkLive
  | checkTimer
  | full
deriving Repr, DecidableEq

/-- Python truthiness of the `Optional[int]` returned by
`check_timer_loop`: `None` and `0` are falsy. -/
def optIntTruthy : Option Nat → Bool
  | none => false
  | some t => t != 0

/-- The process exit status computed by `main`, given the Tier-1
collaborator responses and the Tier-2 trace. -/
def main_exit (mode : Mode) (config : Config) (state : RunState)
    (t1_is_minecraft : Bool) (t1_stream : Option String) (t1_now : Int)
    (dry_run single_check : Bool) (inputs : List IterInput) : Nat :=
  match mode with
  | Mode.checkLive =>
      if check_live config state t1_is_minecraft t1_stream t1_now then 0 else 1
  | Mode.checkTimer =>
      if optIntTruthy (check_timer_loop config dry_run single_check inputs).result then 0 else 1
  | Mode.full =>
      if !check_live config state t1_is_minecraft t1_stream t1_now then 0
      else if optIntTruthy (check_timer_loop config dry_run single_check inputs).result then 0
      else 1

/-- An iteration on which the stream is fine and the timer decodes to
`t` (used to quantify over sequences of successfully decoded values). -/
def decodedInput (now : Int) (t : Nat) : IterInput :=
  { stream := some ("Minecraft"), is_minecraft := true, frame_captured := true,
    timer_read := some t, now := now }

/-- The spec's Tier-2 threshold policy, written from §4.5(d) of the spec:
above the window terminate with nothing, inside the window succeed with
the value, below it keep polling. -/
def specTier2Verdict (mn mx : Nat) : List Nat → Option Nat
  | [] => none
  | t :: ts => if mx < t then none else if mn ≤ t then some t else specTier2Verdict mn mx ts

/-- The default configuration of `main.py`: streamer `forsen`, window
`[600, 867]`, enabled. -/
def defaultConfig : Config :=
  { streamer := "forsen", min_threshold_seconds := 600,
    max_threshold_seconds := 867, enabled := true }

example :
    check_timer_loop defaultConfig false false ([540, 590, 615].map (decodedInput 0)) =
      { result := some 615, alerts := [("10:15")],
        posts := [("Current run: 10:15 IGT | twitch.tv/forsen")], writes := [0] } := by decide

example :
    check_timer_loop defaultConfig false false ([900].map (decodedInput 0)) =
      { result := none, alerts := [], posts := [], writes := [] } := by decide

/-! ### Claims about the timer decoder -/

/-- C2: after character correction the first valid token becomes `rta`,
the second becomes `igt`, further tokens are ignored, both are absent when
zero tokens are valid; the effective timer is `igt` when present, else
`rta`, and is absent exactly when both are absent. -/
theorem claim_C2_rta_igt_resolution (text : String) :
    (parse_timer_detailed text).rta = (validTokensOf text)[0]? ∧
    (parse_timer_detailed text).igt = (validTokensOf text)[1]? ∧
    (validTokensOf text = [] →
      (parse_timer_detailed text).rta = none ∧ (parse_timer_detailed text).igt = none) ∧
    (∀ a l, validTokensOf text = a :: l → (parse_timer_detailed text).rta = some a) ∧
    (∀ a b l, validTokensOf text = a :: b :: l → (parse_timer_detailed text).igt = some b) ∧
    (∀ a, validTokensOf text = [a] → (parse_timer_detailed text).igt = none) ∧
    (∀ v, (parse_timer_detailed text).igt = some v → (parse_timer_detailed text).timer = some v) ∧
    ((parse_timer_detailed text).igt = none →
      (parse_timer_detailed text).timer = (parse_timer_detailed text).rta) ∧
    ((parse_timer_detailed text).timer = none ↔
      (parse_timer_detailed text).rta = none ∧ (parse_timer_detailed text).igt = none) := by
  refine ⟨rfl, rfl, ?_, ?_, ?_, ?_, ?_, ?_, ?_⟩
  · intro h
    simp [parse_timer_detailed, h]
  · intro a l h
    simp [parse_timer_detailed, h]
  · intro a b l h
    simp [parse_timer_detailed, h]
  · intro a h
    simp [parse_timer_detailed, h]
  · intro v h
    simp [TimerResult.timer, h]
  · intro h
    simp [TimerResult.timer, h]
  · rcases hig : (parse_timer_detailed text).igt with _ | v <;> simp [TimerResult.timer, hig]

/-- Witness for C2 on the spec's two-line scenario. -/
theorem claim_C2_witness :
    (parse_timer_detailed ("RTA: 03:47.246\nIGT: 03:28.022")).rta = some 227 ∧
    (parse_timer_detailed ("RTA: 03:47.246\nIGT: 03:28.022")).igt = some 208 ∧
    (parse_timer_detailed ("RTA: 03:47.246\nIGT: 03:28.022")).timer = some 208 := by
  have h := claim_C2_rta_igt_resolution ("RTA: 03:47.246\nIGT: 03:28.022")
  refine ⟨h.2.2.2.1 227 [208] (by decide), h.2.2.2.2.1 227 208 [] (by decide), ?_⟩
  exact h.2.2.2.2.2.2.1 208 (h.2.2.2.2.1 227 208 [] (by decide))

/-- C10: the field `igt` can only be present when `rta` is, and the effective timer
is absent exactly when `rta` is absent. -/
theorem claim_C10_igt_implies_rta (text : String) :
    ((parse_timer_detailed text).igt.isSome = true →
      (parse_timer_detailed text).rta.isSome = true) ∧
    ((parse_timer_detailed text).timer = none ↔ (parse_timer_detailed text).rta = none) := by
  rcases h : validTokensOf text with _ | ⟨a, tail⟩
  · simp [parse_timer_detailed, TimerResult.timer, h]
  · rcases htail : tail[0]? with _ | v <;>
      simp [parse_timer_detailed, TimerResult.timer, h, htail]

/-- Witness for C10. -/
theorem claim_C10_witness :
    (parse_timer_detailed ("RTA: 03:47.246\nIGT: 03:28.022")).rta.isSome = true := by
  exact (claim_C10_igt_implies_rta ("RTA: 03:47.246\nIGT: 03:28.022")).1 (by decide)

/-- C5: a token whose minutes are at least 60 contributes
`(minutes mod 10) * 60 + seconds`; the seconds component is untouched. -/
theorem claim_C5_minute_overflow (m s : Nat) (rest : List (Nat × Nat))
    (hm : 60 ≤ m) (hs : s < 60) :
    validTimes ((m, s) :: rest) = (m % 10 * 60 + s) :: validTimes rest := by
  simp [validTimes, hm, hs]

/-- Witness for C5: minutes 63 become 3, and `"63:47"` parses to 227. -/
theorem claim_C5_witness :
    validTimes [(63, 47)] = [227] ∧ parse_timer ("63:47") = some 227 := by
  constructor
  · have h := claim_C5_minute_overflow 63 47 [] (by decide) (by decide)
    simpa using h
  · decide

/-- C6: a token with seconds at least 60 is discarded entirely; every
other token contributes `minutes * 60 + seconds` (with the corrected
minutes) and keeps its position in encounter order. -/
theorem claim_C6_seconds_validity (m s : Nat) (rest : List (Nat × Nat)) :
    (60 ≤ s → validTimes ((m, s) :: rest) = validTimes rest) ∧
    (s < 60 → validTimes ((m, s) :: rest) =
      ((if 60 ≤ m then m % 10 else m) * 60 + s) :: validTimes rest) := by
  constructor
  · intro h
    have h2 : ¬ s < 60 := by omega
    simp [validTimes, h2]
  · intro h
    simp [validTimes, h]

/-- Witness for C6: `(3, 99)` is dropped and does not occupy a position,
so `(3, 28)` is the first valid token. -/
theorem claim_C6_witness : validTimes [(3, 99), (3, 28)] = [208] := by
  have h1 := (claim_C6_seconds_validity 3 99 [(3, 28)]).1 (by decide)
  have h2 := (claim_C6_seconds_validity 3 28 []).2 (by decide)
  rw [h1, h2]
  decide

/-! ### Claims about the state machine -/

/-- C4: Tier-1 admission is negative exactly when the bot is disabled, or
the channel is offline, or the content is not Minecraft, or the recorded
last notification lies within the cooldown window before `now`; positive
in every other case. -/
theorem claim_C4_tier1_admission (config : Config) (state : RunState)
    (is_minecraft : Bool) (stream : Option String) (now : Int) :
    (check_live config state is_minecraft stream now = false ↔
      (config.enabled = false ∨ stream = none ∨ is_minecraft = false ∨
        ∃ last, state.last_tweet_time = some last ∧
          now - last < (config.max_threshold_seconds : Int))) ∧
    (check_live config state is_minecraft stream now = true ↔
      (config.enabled = true ∧ stream.isSome = true ∧ is_minecraft = true ∧
        ∀ last, state.last_tweet_time = some last →
          (config.max_threshold_seconds : Int) ≤ now - last)) := by
  rcases stream with _ | g <;>
    rcases hlt : state.last_tweet_time with _ | last <;>
      cases he : config.enabled <;> cases is_minecraft <;>
        simp [check_live, should_skip_for_same_run, hlt, he]

/-- C1: over any trace of successfully decoded timers, the loop returns
the spec verdict (terminate on a value above the window, succeed on the
first value inside it, keep polling below it), alerts exactly once when
it succeeds and never otherwise; over an arbitrary trace at most one
alert is ever emitted per invocation; and the spec's concrete scenario
`[540, 590, 615]` with window `[600, 867]` alerts exactly once, on 615. -/
theorem claim_C1_tier2_threshold_policy :
    (∀ (config : Config) (dry_run single_check : Bool) (inputs : List IterInput),
      (check_timer_loop config dry_run single_check inputs).alerts.length ≤ 1) ∧
    (∀ (config : Config) (ts : List Nat),
      (check_timer_loop config false false (ts.map (decodedInput 0))).result =
        specTier2Verdict config.min_threshold_seconds config.max_threshold_seconds ts ∧
      (check_timer_loop config false false (ts.map (decodedInput 0))).alerts =
        ((specTier2Verdict config.min_threshold_seconds config.max_threshold_seconds ts).map
          format_timer).toList) ∧
    check_timer_loop defaultConfig false false ([540, 590, 615].map (decodedInput 0)) =
      { result := some 615, alerts := [("10:15")],
        posts := [("Current run: 10:15 IGT | twitch.tv/forsen")], writes := [0] } := by
  refine ⟨?_, ?_, by decide⟩
  · intro config dry_run single_check inputs
    induction inputs with
    | nil => simp [check_timer_loop]
    | cons inp rest ih =>
      obtain ⟨st, mc, fc, tr, now⟩ := inp
      rcases st with _ | g <;> rcases tr with _ | t <;> cases mc <;> cases fc <;>
        simp [check_timer_loop] <;> split_ifs <;> simp_all
  · intro config ts
    induction ts with
    | nil => exact ⟨rfl, rfl⟩
    | cons t ts ih =>
      simp only [List.map_cons, check_timer_loop, decodedInput, specTier2Verdict]
      split_ifs with h1 h2 <;> simp_all

/-- Witness for C4: a recent tweet (cooldown active) blocks admission. -/
theorem claim_C4_witness :
    check_live defaultConfig { last_tweet_time := some 100 } true (some ("Minecraft")) 200
      = false := by
  exact (claim_C4_tier1_admission defaultConfig { last_tweet_time := some 100 } true
    (some ("Minecraft")) 200).1.mpr (Or.inr (Or.inr (Or.inr ⟨100, rfl, by decide⟩)))

/-- On a dry run the X API is never called. -/
lemma dry_posts_nil (config : Config) (single_check : Bool) (inputs : List IterInput) :
    (check_timer_loop config true single_check inputs).posts = [] := by
  induction inputs with
  | nil => rfl
  | cons inp rest ih =>
    obtain ⟨st, mc, fc, tr, now⟩ := inp
    rcases st with _ | g <;> rcases tr with _ | t <;>
      simp [check_timer_loop, post_run_alert] <;> split_ifs <;> simp_all

/-- On a dry run the state is never written. -/
lemma dry_writes_nil (config : Config) (single_check : Bool) (inputs : List IterInput) :
    (check_timer_loop config true single_check inputs).writes = [] := by
  induction inputs with
  | nil => rfl
  | cons inp rest ih =>
    obtain ⟨st, mc, fc, tr, now⟩ := inp
    rcases st with _ | g <;> rcases tr with _ | t <;>
      simp [check_timer_loop] <;> split_ifs <;> simp_all

/-- The returned result does not depend on the dry flag. -/
lemma result_dry_indep (config : Config) (dry_run single_check : Bool)
    (inputs : List IterInput) :
    (check_timer_loop config dry_run single_check inputs).result =
      (check_timer_loop config false single_check inputs).result := by
  induction inputs with
  | nil => rfl
  | cons inp rest ih =>
    obtain ⟨st, mc, fc, tr, now⟩ := inp
    rcases st with _ | g <;> rcases tr with _ | t <;>
      simp [check_timer_loop] <;> split_ifs <;> simp_all

/-- The alert decisions do not depend on the dry flag. -/
lemma alerts_dry_indep (config : Config) (dry_run single_check : Bool)
    (inputs : List IterInput) :
    (check_timer_loop config dry_run single_check inputs).alerts =
      (check_timer_loop config false single_check inputs).alerts := by
  induction inputs with
  | nil => rfl
  | cons inp rest ih =>
    obtain ⟨st, mc, fc, tr, now⟩ := inp
    rcases st with _ | g <;> rcases tr with _ | t <;>
      simp [check_timer_loop] <;> split_ifs <;> simp_all

/-- A non-dry loop that returns no timer writes no state. -/
lemma wet_none_writes_nil (config : Config) (single_check : Bool)
    (inputs : List IterInput)
    (h : (check_timer_loop config false single_check inputs).result = none) :
    (check_timer_loop config false single_check inputs).writes = [] := by
  induction inputs with
  | nil => rfl
  | cons inp rest ih =>
    obtain ⟨st, mc, fc, tr, now⟩ := inp
    rcases st with _ | g <;> rcases tr with _ | t <;>
      simp_all [check_timer_loop] <;> split_ifs at h ⊢ <;> simp_all

/-- A non-dry loop that returns a timer wrote exactly the triggering
iteration's time and posted exactly the corresponding tweet. -/
lemma wet_trigger_effects (config : Config) (single_check : Bool)
    (inputs : List IterInput) (t : Nat)
    (h : (check_timer_loop config false single_check inputs).result = some t) :
    ∃ inp ∈ inputs, inp.timer_read = some t ∧
      (check_timer_loop config false single_check inputs).writes = [inp.now] ∧
      (check_timer_loop config false single_check inputs).posts =
        [tweet_text (format_timer t) config.streamer] := by
  induction inputs with
  | nil => simp [check_timer_loop] at h
  | cons inp rest ih =>
    obtain ⟨st, mc, fc, tr, now⟩ := inp
    rcases st with _ | g <;> rcases tr with _ | tv <;>
      simp_all [check_timer_loop, post_run_alert] <;> split_ifs at h ⊢ <;> simp_all

/-- C9: with the dry flag set, a qualifying timer calls no external
notification and writes no state, while the decision logic (returned
result, alert decisions) is exactly that of non-dry mode; in non-dry mode
the qualifying timer writes the triggering iteration's current time as
`last_tweet_time` (and nothing is written when nothing qualified). -/
theorem claim_C9_dry_run_suppression (config : Config) (single_check : Bool)
    (inputs : List IterInput) :
    (check_timer_loop config true single_check inputs).posts = [] ∧
    (check_timer_loop config true single_check inputs).writes = [] ∧
    (check_timer_loop config true single_check inputs).result =
      (check_timer_loop config false single_check inputs).result ∧
    (check_timer_loop config true single_check inputs).alerts =
      (check_timer_loop config false single_check inputs).alerts ∧
    ((check_timer_loop config false single_check inputs).result = none →
      (check_timer_loop config false single_check inputs).writes = []) ∧
    (∀ t, (check_timer_loop config false single_check inputs).result = some t →
      ∃ inp ∈ inputs, inp.timer_read = some t ∧
        (check_timer_loop config false single_check inputs).writes = [inp.now] ∧
        (check_timer_loop config false single_check inputs).posts =
          [tweet_text (format_timer t) config.streamer]) :=
  ⟨dry_posts_nil config single_check inputs,
   dry_writes_nil config single_check inputs,
   result_dry_indep config true single_check inputs,
   alerts_dry_indep config true single_check inputs,
   wet_none_writes_nil config single_check inputs,
   fun t h => wet_trigger_effects config single_check inputs t h⟩

/-- Witness for C9: a qualifying timer at time 42 writes exactly 42 in
non-dry mode, and its dry twin posts and writes nothing. -/
theorem claim_C9_witness :
    (check_timer_loop defaultConfig false false [decodedInput 42 615]).writes =
      [(decodedInput 42 615).now] ∧
    (check_timer_loop defaultConfig true false [decodedInput 42 615]).posts = [] := by
  have h := claim_C9_dry_run_suppression defaultConfig false [decodedInput 42 615]
  refine ⟨?_, h.1⟩
  obtain ⟨inp, hmem, _, hw, _⟩ := h.2.2.2.2.2 615 (by decide)
  rw [List.mem_singleton] at hmem
  rw [hw, hmem]

/-- A configuration with the minimum threshold at 0, as `config.json` may
legitimately contain (`config.get("min_threshold_seconds", 600)` accepts
any number). -/
def zeroMinConfig : Config :=
  { streamer := "forsen", min_threshold_seconds := 0,
    max_threshold_seconds := 867, enabled := true }

/-- C8 (code bug): in check-timer mode with `min_threshold_seconds = 0`
and a first decoded timer of 0 seconds, the loop posts one notification
and returns the timer 0, yet the process exits with status 1 — Python's
`0 if result else 1` treats the timer value 0 as falsy — so exit status
does not distinguish "notification sent" from "no notification sent". -/
theorem claim_C8_exit_status_zero_timer :
    (check_timer_loop zeroMinConfig false false [decodedInput 7 0]).posts =
      [tweet_text (format_timer 0) ("forsen")] ∧
    (check_timer_loop zeroMinConfig false false [decodedInput 7 0]).result = some 0 ∧
    main_exit Mode.checkTimer zeroMinConfig { last_tweet_time := none } true
      (some ("Minecraft")) 0 false false [decodedInput 7 0] = 1 := by decide

/-! ### The display-form regular shape and the format/parse round trip -/

/-- After at least one leading digit: the remaining characters of a string
matching the anchored pattern "digits, one colon, exactly two digits". -/
def shapeTail : List Char → Bool
  | [] => false
  | a :: rest =>
      if a = ':' then
        match rest with
        | [x, y] => x.isDigit && y.isDigit
        | _ => false
      else a.isDigit && shapeTail rest

/-- Whether a character list matches the anchored regular expression
for a displayed timer: one or more digits, a colon, exactly two digits. -/
def timerShapeRe : List Char → Bool
  | [] => false
  | a :: rest => a.isDigit && shapeTail rest

lemma digitChar_isDigit : ∀ k, k < 10 → (Nat.digitChar k).isDigit = true := by decide

lemma digitVal_digitChar : ∀ k, k < 10 → digitVal (Nat.digitChar k) = k := by decide

lemma fixChar_digitChar : ∀ k, k < 10 → fixChar (Nat.digitChar k) = Nat.digitChar k := by decide

lemma fixChar_colon : fixChar ':' = ':' := by decide

lemma natDigitsAux_small (f k : Nat) (h : k < 10) : natDigitsAux (f + 1) k = [Nat.digitChar k] := by
  simp [natDigitsAux, h]

lemma natDigits_small {k : Nat} (h : k < 10) : natDigits k = [Nat.digitChar k] :=
  natDigitsAux_small k k h

lemma natDigits_two {n : Nat} (h10 : 10 ≤ n) (h100 : n < 100) :
    natDigits n = [Nat.digitChar (n / 10), Nat.digitChar (n % 10)] := by
  obtain ⟨f, rfl⟩ : ∃ f, n = f + 1 := ⟨n - 1, by omega⟩
  rw [natDigits, natDigitsAux, if_neg (by omega), natDigitsAux_small f _ (by omega)]
  rfl

lemma pad2_eq {s : Nat} (h : s < 60) :
    pad2 s = [Nat.digitChar (s / 10), Nat.digitChar (s % 10)] := by
  by_cases h10 : s < 10
  · rw [pad2, if_pos h10, natDigits_small h10, Nat.div_eq_of_lt h10, Nat.mod_eq_of_lt h10]
    rfl
  · rw [pad2, if_neg h10, natDigits_two (by omega) (by omega)]

lemma shapeTail_append :
    ∀ (ds : List Char), (∀ c ∈ ds, c.isDigit = true) →
      ∀ x y : Char, x.isDigit = true → y.isDigit = true →
        shapeTail (ds ++ [':', x, y]) = true := by
  intro ds
  induction ds with
  | nil =>
    intro _ x y hx hy
    simp [shapeTail, hx, hy]
  | cons d ds ih =>
    intro hds x y hx hy
    have hd : d.isDigit = true := hds d (by simp)
    have hne : d ≠ ':' := by
      intro hcol
      rw [hcol] at hd
      exact absurd hd (by decide)
    simp only [List.cons_append, shapeTail, if_neg hne, hd, Bool.true_and]
    exact ih (fun c hc => hds c (by simp [hc])) x y hx hy

lemma timerShapeRe_build (d : Char) (ds : List Char) (x y : Char)
    (hd : d.isDigit = true) (hds : ∀ c ∈ ds, c.isDigit = true)
    (hx : x.isDigit = true) (hy : y.isDigit = true) :
    timerShapeRe (d :: (ds ++ [':', x, y])) = true := by
  simp only [timerShapeRe, hd, Bool.true_and]
  exact shapeTail_append ds hds x y hx hy

/-- Output of `format_timer` matches `^\d+:\d\x7b2\x7d$` for any seconds
count below 6000. -/
lemma format_timer_shape {s : Nat} (h : s ≤ 5999) :
    timerShapeRe (format_timer s).data = true := by
  have hr : s % 60 < 60 := Nat.mod_lt _ (by omega)
  have hpad := pad2_eq hr
  have hx : (Nat.digitChar (s % 60 / 10)).isDigit = true := digitChar_isDigit _ (by omega)
  have hy : (Nat.digitChar (s % 60 % 10)).isDigit = true := digitChar_isDigit _ (by omega)
  by_cases hm10 : s / 60 < 10
  · rw [format_timer]
    show timerShapeRe (natDigits (s / 60) ++ ':' :: pad2 (s % 60)) = true
    rw [natDigits_small hm10, hpad]
    exact timerShapeRe_build _ [] _ _ (digitChar_isDigit _ hm10) (by simp) hx hy
  · rw [format_timer]
    show timerShapeRe (natDigits (s / 60) ++ ':' :: pad2 (s % 60)) = true
    rw [natDigits_two (by omega) (by omega), hpad]
    exact timerShapeRe_build _ [Nat.digitChar (s / 60 % 10)] _ _
      (digitChar_isDigit _ (by omega))
      (by
        intro c hc
        rw [List.mem_singleton] at hc
        rw [hc]
        exact digitChar_isDigit _ (by omega)) hx hy

/-- Re-parsing a formatted timer below one hour recovers the seconds
count: the formatted string survives character correction unchanged,
extracts as the single token `(minutes, seconds)`, and passes the
validity filter without the minute-overflow correction firing. -/
lemma parse_format_roundtrip {sec : Nat} (h : sec ≤ 3599) :
    parse_timer (format_timer sec) = some sec := by
  have hm : sec / 60 < 60 := by omega
  have hs : sec % 60 < 60 := by omega
  have hx10 : sec % 60 / 10 < 10 := by omega
  have hy10 : sec % 60 % 10 < 10 := by omega
  by_cases hm10 : sec / 60 < 10
  · have hdata : (format_timer sec).data =
        [Nat.digitChar (sec / 60), ':', Nat.digitChar (sec % 60 / 10),
          Nat.digitChar (sec % 60 % 10)] := by
      show natDigits (sec / 60) ++ ':' :: pad2 (sec % 60) = _
      rw [natDigits_small hm10, pad2_eq hs]
      rfl
    have hmap : (format_timer sec).data.map fixChar = (format_timer sec).data := by
      rw [hdata]
      simp [fixChar_digitChar _ hm10, fixChar_colon, fixChar_digitChar _ hx10,
        fixChar_digitChar _ hy10]
    have hfind : findAllTimes (format_timer sec).data = [(sec / 60, sec % 60)] := by
      rw [hdata]
      simp [findAllTimes, digitChar_isDigit _ hm10, digitChar_isDigit _ hx10,
        digitChar_isDigit _ hy10, digitVal_digitChar _ hm10, digitVal_digitChar _ hx10,
        digitVal_digitChar _ hy10]
      omega
    have hvt : validTokensOf (format_timer sec) = [sec] := by
      have hfx : (fix_ocr_text (format_timer sec)).data = (format_timer sec).data.map fixChar :=
        rfl
      rw [validTokensOf, hfx, hmap, hfind]
      simp [validTimes, hs, show ¬ 60 ≤ sec / 60 by omega]
      omega
    simp [parse_timer, parse_timer_detailed, TimerResult.timer, hvt]
  · have hma : sec / 60 / 10 < 10 := by omega
    have hmb : sec / 60 % 10 < 10 := by omega
    have hdata : (format_timer sec).data =
        [Nat.digitChar (sec / 60 / 10), Nat.digitChar (sec / 60 % 10), ':',
          Nat.digitChar (sec % 60 / 10), Nat.digitChar (sec % 60 % 10)] := by
      show natDigits (sec / 60) ++ ':' :: pad2 (sec % 60) = _
      rw [natDigits_two (by omega) (by omega), pad2_eq hs]
      rfl
    have hmap : (format_timer sec).data.map fixChar = (format_timer sec).data := by
      rw [hdata]
      simp [fixChar_digitChar _ hma, fixChar_digitChar _ hmb, fixChar_colon,
        fixChar_digitChar _ hx10, fixChar_digitChar _ hy10]
    have hfind : findAllTimes (format_timer sec).data = [(sec / 60, sec % 60)] := by
      rw [hdata]
      simp [findAllTimes, digitChar_isDigit _ hma, digitChar_isDigit _ hmb,
        digitChar_isDigit _ hx10, digitChar_isDigit _ hy10, digitVal_digitChar _ hma,
        digitVal_digitChar _ hmb, digitVal_digitChar _ hx10, digitVal_digitChar _ hy10]
      omega
    have hvt : validTokensOf (format_timer sec) = [sec] := by
      have hfx : (fix_ocr_text (format_timer sec)).data = (format_timer sec).data.map fixChar :=
        rfl
      rw [validTokensOf, hfx, hmap, hfind]
      simp [validTimes, hs, show ¬ 60 ≤ sec / 60 by omega]
      omega
    simp [parse_timer, parse_timer_detailed, TimerResult.timer, hvt]

/-- Counterexample to C3 as stated: 3600 lies in `[0, 5999]`, but its
formatted form `"60:00"` re-parses to 0 — the minute-overflow correction
rewrites minutes 60 to 0 — so the round trip fails. -/
theorem claim_C3_counterexample :
    parse_timer (format_timer 3600) = some 0 ∧
      parse_timer (format_timer 3600) ≠ some 3600 := by decide

/-- C3 (amended): for every `s` in `[0, 5999]`, `format_timer s` matches
`^\d+:\d\x7b2\x7d$` (minutes unpadded, seconds two digits); the
round trip through the parser recovers `s` for `s` in `[0, 3599]`, while
for `s ≥ 3600` the minute-overflow correction breaks it. -/
theorem claim_C3_format_roundtrip (s : Nat) (h : s ≤ 5999) :
    timerShapeRe (format_timer s).data = true ∧
      (s ≤ 3599 → parse_timer (format_timer s) = some s) :=
  ⟨format_timer_shape h, fun h2 => parse_format_roundtrip h2⟩

/-- Witness for C3 on the spec's example 630 seconds, `"10:30"`. -/
theorem claim_C3_witness :
    timerShapeRe (format_timer 630).data = true ∧ parse_timer (format_timer 630) = some 630 := by
  have h := claim_C3_format_roundtrip 630 (by decide)
  exact ⟨h.1, h.2 (by decide)⟩

/-! ### Token extraction against the declarative token shape -/

/-- Whether a character list is exactly of the shape "1 to 2 digits, a
colon, exactly 2 digits" (the `minutes:seconds` token of the regex). -/
def isTimerToken : List Char → Bool
  | [a, c, x, y] => a.isDigit && c == ':' && x.isDigit && y.isDigit
  | [a, b, c, x, y] => a.isDigit && b.isDigit && c == ':' && x.isDigit && y.isDigit
  | _ => false

/-- The integer interpretation (minutes, seconds) of a shaped token. -/
def tokenValue : List Char → Nat × Nat
  | [a, _, x, y] => (digitVal a, 10 * digitVal x + digitVal y)
  | [a, b, _, x, y] => (10 * digitVal a + digitVal b, 10 * digitVal x + digitVal y)
  | _ => (0, 0)

/-- Proposition that `sub` occurs as a contiguous substring of `l`. -/
def OccursIn (sub l : List Char) : Prop := ∃ p q, l = p ++ sub ++ q

lemma occursIn_cases {sub l : List Char} {a : Char} (h : OccursIn sub (a :: l)) :
    (∃ q, a :: l = sub ++ q) ∨ OccursIn sub l := by
  obtain ⟨p, q, hp⟩ := h
  cases p with
  | nil => exact Or.inl ⟨q, by simpa using hp⟩
  | cons h0 t =>
    right
    injection hp with h1 h2
    exact ⟨t, q, h2⟩

lemma isTimerToken_length {sub : List Char} (h : isTimerToken sub = true) :
    sub.length = 4 ∨ sub.length = 5 := by
  rcases sub with _ | ⟨a, _ | ⟨b, _ | ⟨c, _ | ⟨d, _ | ⟨e, _ | ⟨f, t⟩⟩⟩⟩⟩⟩ <;>
    simp_all [isTimerToken]

lemma take_append_len (sub q : List Char) : (sub ++ q).take sub.length = sub := by
  induction sub with
  | nil => rfl
  | cons a t ih => simp [ih]

lemma prefix_eq_take {l sub q : List Char} (h : l = sub ++ q) : sub = l.take sub.length := by
  rw [h, take_append_len]

/-- Every extracted token is the value of a shaped substring of the
scanned text. -/
lemma findAllTimes_sound :
    ∀ l, ∀ t ∈ findAllTimes l,
      ∃ sub, OccursIn sub l ∧ isTimerToken sub = true ∧ tokenValue sub = t := by
  intro l
  induction l using findAllTimes.induct with
  | case1 a b c x y rest h1 ih =>
    intro t ht
    simp only [findAllTimes, if_pos h1] at ht
    rcases List.mem_cons.mp ht with rfl | hmem
    · refine ⟨[a, b, c, x, y], ⟨[], rest, by simp⟩, ?_, rfl⟩
      simpa only [isTimerToken] using h1
    · obtain ⟨sub, ⟨p, q, hpq⟩, hT, hV⟩ := ih t hmem
      exact ⟨sub, ⟨a :: b :: c :: x :: y :: p, q, by simp [hpq]⟩, hT, hV⟩
  | case2 a b c x y rest h1 h2 ih =>
    intro t ht
    simp only [findAllTimes, if_neg h1, if_pos h2] at ht
    rcases List.mem_cons.mp ht with rfl | hmem
    · refine ⟨[a, b, c, x], ⟨[], y :: rest, by simp⟩, ?_, rfl⟩
      simpa only [isTimerToken] using h2
    · obtain ⟨sub, ⟨p, q, hpq⟩, hT, hV⟩ := ih t hmem
      exact ⟨sub, ⟨a :: b :: c :: x :: p, q, by simp [hpq]⟩, hT, hV⟩
  | case3 a b c x y rest h1 h2 ih =>
    intro t ht
    simp only [findAllTimes, if_neg h1, if_neg h2] at ht
    obtain ⟨sub, ⟨p, q, hpq⟩, hT, hV⟩ := ih t ht
    exact ⟨sub, ⟨a :: p, q, by simp [hpq]⟩, hT, hV⟩
  | case4 a b c x h =>
    intro t ht
    simp only [findAllTimes, if_pos h] at ht
    rcases List.mem_singleton.mp ht with rfl
    refine ⟨[a, b, c, x], ⟨[], [], by simp⟩, ?_, rfl⟩
    simpa only [isTimerToken] using h
  | case5 a b c x h ih =>
    intro t ht
    simp only [findAllTimes, if_neg h] at ht
    obtain ⟨sub, ⟨p, q, hpq⟩, hT, hV⟩ := ih t ht
    exact ⟨sub, ⟨a :: p, q, by simp [hpq]⟩, hT, hV⟩
  | case6 head rest h5 h3 ih =>
    intro t ht
    have heq : findAllTimes (head :: rest) = findAllTimes rest := by
      rcases rest with _ | ⟨r1, _ | ⟨r2, _ | ⟨r3, _ | ⟨r4, rt⟩⟩⟩⟩
      · rfl
      · rfl
      · rfl
      · exact absurd rfl (h3 r1 r2 r3)
      · exact absurd rfl (h5 r1 r2 r3 r4 rt)
    rw [heq] at ht
    obtain ⟨sub, ⟨p, q, hpq⟩, hT, hV⟩ := ih t ht
    exact ⟨sub, ⟨head :: p, q, by simp [hpq]⟩, hT, hV⟩
  | case7 =>
    intro t ht
    simp [findAllTimes] at ht

/-- If the scan finds nothing, the text has no shaped substring. -/
lemma findAllTimes_nil_no_token :
    ∀ l, findAllTimes l = [] → ∀ sub, OccursIn sub l → isTimerToken sub = false := by
  intro l
  induction l using findAllTimes.induct with
  | case1 a b c x y rest h1 ih =>
    intro hl
    simp [findAllTimes, h1] at hl
  | case2 a b c x y rest h1 h2 ih =>
    intro hl
    simp [findAllTimes, h1, h2] at hl
  | case3 a b c x y rest h1 h2 ih =>
    intro hl sub hsub
    simp only [findAllTimes, if_neg h1, if_neg h2] at hl
    rcases occursIn_cases hsub with ⟨q, hq⟩ | htail
    · cases hT : isTimerToken sub
      · rfl
      · exfalso
        rcases isTimerToken_length hT with h4 | hlen5
        · have hsubeq : sub = [a, b, c, x] := by
            have htake := prefix_eq_take hq
            rw [h4] at htake
            simpa using htake
          rw [hsubeq] at hT
          simp only [isTimerToken, Bool.and_eq_true, beq_iff_eq] at hT
          obtain ⟨⟨⟨hTa, hTb⟩, hTc⟩, hTd⟩ := hT
          exact h2 (by simp [hTa, hTb, hTc, hTd])
        · have hsubeq : sub = [a, b, c, x, y] := by
            have htake := prefix_eq_take hq
            rw [hlen5] at htake
            simpa using htake
          rw [hsubeq] at hT
          simp only [isTimerToken, Bool.and_eq_true, beq_iff_eq] at hT
          obtain ⟨⟨⟨⟨hTa, hTb⟩, hTc⟩, hTd⟩, hTe⟩ := hT
          exact h1 (by simp [hTa, hTb, hTc, hTd, hTe])
    · exact ih hl sub htail
  | case4 a b c x h =>
    intro hl
    simp [findAllTimes, h] at hl
  | case5 a b c x h ih =>
    intro hl sub hsub
    rcases occursIn_cases hsub with ⟨q, hq⟩ | htail
    · cases hT : isTimerToken sub
      · rfl
      · exfalso
        rcases isTimerToken_length hT with h4 | hlen5
        · have hsubeq : sub = [a, b, c, x] := by
            have htake := prefix_eq_take hq
            rw [h4] at htake
            simpa using htake
          rw [hsubeq] at hT
          simp only [isTimerToken, Bool.and_eq_true, beq_iff_eq] at hT
          obtain ⟨⟨⟨hTa, hTb⟩, hTc⟩, hTd⟩ := hT
          exact h (by simp [hTa, hTb, hTc, hTd])
        · have hlenq := congrArg List.length hq
          simp [List.length_append] at hlenq
          omega
    · exact ih rfl sub htail
  | case6 head rest h5 h3 ih =>
    intro hl sub hsub
    have hlen : rest.length ≤ 2 := by
      rcases rest with _ | ⟨r1, _ | ⟨r2, _ | ⟨r3, rtail⟩⟩⟩
      · simp
      · simp
      · simp
      · rcases rtail with _ | ⟨r4, rt⟩
        · exact absurd rfl (h3 r1 r2 r3)
        · exact absurd rfl (h5 r1 r2 r3 r4 rt)
    cases hT : isTimerToken sub
    · rfl
    · exfalso
      obtain ⟨p, q, hp⟩ := hsub
      have hlen2 := congrArg List.length hp
      simp [List.length_append] at hlen2
      rcases isTimerToken_length hT with h4 | hlen5 <;> omega
  | case7 =>
    intro hl sub hsub
    obtain ⟨p, q, hp⟩ := hsub
    have hlen := congrArg List.length hp
    simp [List.length_append] at hlen
    have hsub0 : sub = [] := List.eq_nil_of_length_eq_zero (by omega)
    rw [hsub0]
    rfl

/-- C7: every extracted token arises as the integer interpretation of a
substring of the scanned text of the shape "1-2 digits, colon, exactly 2
digits", and the scan comes back empty exactly when the text has no
substring of that shape. -/
theorem claim_C7_token_extraction (l : List Char) :
    (∀ t ∈ findAllTimes l,
      ∃ sub, OccursIn sub l ∧ isTimerToken sub = true ∧ tokenValue sub = t) ∧
    (findAllTimes l = [] ↔ ∀ sub, OccursIn sub l → isTimerToken sub = false) := by
  refine ⟨findAllTimes_sound l, findAllTimes_nil_no_token l, fun h => ?_⟩
  cases hf : findAllTimes l with
  | nil => rfl
  | cons t ts =>
    obtain ⟨sub, hocc, htok, _⟩ := findAllTimes_sound l t (by simp [hf])
    rw [h sub hocc] at htok
    exact Bool.noConfusion htok

/-- Witness for C7: the token `(12, 34)` extracted from `"a12:34"` comes
from a shaped substring. -/
theorem claim_C7_witness :
    ∃ sub, OccursIn sub ("a12:34").data ∧ isTimerToken sub = true ∧
      tokenValue sub = (12, 34) := by
  exact (claim_C7_token_extraction ("a12:34").data).1 (12, 34) (by decide)

end ForsenInsane
